import Mathlib

/-
Verification development for the JobMatch.ai scraping subsystem
(backend/src/services/scraper/).  The Python modules
base_scraper.py, indeed_scraper.py, linkedin_scraper.py,
orchestrator.py and deep_research.py are shallowly embedded as pure
Lean functions.  External effects (HTTP fetches, the LLM collaborator,
the database session) are abstracted as explicit environment
parameters: each environment field records what the corresponding
external call would return (or raise, via Except).  Persistence
(db.add) is modelled as an append-only list of Job records.
-/

namespace JobMatch

/-- Listing stub produced by a search pass.  In the Python source a stub
is a dict built by parse_indeed_search_html / parse_linkedin_search_html;
all of its keys are always present there, so the dict is modelled as a
structure.  Falsy string values ("" or a missing key, which the source
reads with dict.get) are modelled as the empty string; location and
posted_date, which the source passes through as possibly-None values, are
modelled as Option. -/
structure Stub where
  job_title : String
  company_name : String
  location : Option String
  job_url : String
  job_id : String
  snippet : String
  posted_date : Option String
  source : String
deriving DecidableEq, Repr

/-- Persisted job record (the fields of models.job.Job that the scraper
writes; required_skills/preferred_skills/is_active are constants there and
are omitted). -/
structure Job where
  company_name : String
  job_title : String
  job_description : String
  location : Option String
  job_url : String
  source : String
  posted_date : Option String
deriving DecidableEq, Repr

/-- Per-source summary, orchestrator.ScrapeResult. -/
structure ScrapeResult where
  source : String
  jobs_found : Nat := 0
  jobs_new : Nat := 0
  jobs_skipped_duplicate : Nat := 0
  jobs_enriched : Nat := 0
  errors : List String := []
deriving DecidableEq, Repr

/-- Aggregated report, orchestrator.ScrapeReport. -/
structure ScrapeReport where
  results : List ScrapeResult := []
  total_new : Nat := 0
deriving DecidableEq, Repr

/-! ## Resilient fetcher: base_scraper.fetch_with_retry

The outcome of each client.get call is supplied by an environment
function from the attempt index.  httpx semantics used by the source:
response.raise_for_status() raises httpx.HTTPStatusError for every
non-2xx status, and httpx.HTTPStatusError is a subclass of
httpx.HTTPError, so the source's `except (httpx.HTTPError,
httpx.TimeoutException)` clause catches it. -/

/-- What one client.get attempt produces: a transport-level exception
(httpx.HTTPError / httpx.TimeoutException) or a response with a status
code and body. -/
inductive AttemptOutcome where
  | transportError (msg : String)
  | response (status : Nat) (body : String)
deriving DecidableEq, Repr

/-- Error raised out of fetch_with_retry: the last caught exception
(a transport error or the HTTPStatusError from raise_for_status), or the
final RuntimeError when no attempt recorded an exception. -/
inductive FetchError where
  | transport (msg : String)
  | httpStatus (status : Nat)
  | exhausted
deriving DecidableEq, Repr

/-- Loop body of fetch_with_retry over the remaining attempt indices
(Python: `for attempt in range(retries)`), threading last_error.
Returns the result together with the list of attempt indices on which an
HTTP request was actually issued.  Statuses 429/503 sleep and continue
without touching last_error; any other non-2xx status raises
HTTPStatusError via raise_for_status, which the except clause catches
into last_error before retrying; a 2xx returns immediately. -/
def fetchWithRetryGo (attempts : Nat → AttemptOutcome) :
    List Nat → Option FetchError → Except FetchError (Nat × String) × List Nat
  | [], lastError =>
      (match lastError with
       | some e => Except.error e
       | none => Except.error FetchError.exhausted, [])
  | i :: rest, lastError =>
      match attempts i with
      | AttemptOutcome.transportError m =>
          let r := fetchWithRetryGo attempts rest (some (FetchError.transport m))
          (r.1, i :: r.2)
      | AttemptOutcome.response s b =>
          if s = 429 ∨ s = 503 then
            let r := fetchWithRetryGo attempts rest lastError
            (r.1, i :: r.2)
          else if 200 ≤ s ∧ s < 300 then
            (Except.ok (s, b), [i])
          else
            let r := fetchWithRetryGo attempts rest (some (FetchError.httpStatus s))
            (r.1, i :: r.2)

/-- base_scraper.fetch_with_retry: up to `retries` attempts; returns the
first 2xx response, else raises the last recorded error (or RuntimeError
when none).  Second component: the attempt indices actually issued. -/
def fetch_with_retry (attempts : Nat → AttemptOutcome) (retries : Nat) :
    Except FetchError (Nat × String) × List Nat :=
  fetchWithRetryGo attempts (List.range retries) none

/-! ## Politeness gate: base_scraper.getRobotsParser / can_fetch

urllib.robotparser.RobotFileParser semantics used by the source:
RobotFileParser.read() catches HTTPError itself (401/403 set
disallow_all, other 4xx set allow_all, 5xx set nothing) and lets other
exceptions (URLError, timeouts) propagate; parse() sets last_checked.
RobotFileParser.can_fetch returns False when disallow_all, True when
allow_all, False when last_checked was never set (file never parsed),
and otherwise consults the parsed rules.  The parsed rule table is
abstracted as a function from URL to Bool. -/

/-- Outcome of urllib.request.urlopen on the robots.txt URL inside
RobotFileParser.read(): a readable file whose parsed rules are the given
function, an HTTPError with a status code, or a non-HTTP failure
(network error, timeout) that read() does not catch. -/
inductive RobotsFetchOutcome where
  | ok (ruleAllows : String → Bool)
  | httpError (code : Nat)
  | netError (msg : String)

/-- State of a RobotFileParser after base_scraper.getRobotsParser ran
on it (the per-domain memoization cache is elided; this is the parser
the cache stores for the domain). -/
structure RobotFileParserState where
  disallow_all : Bool
  allow_all : Bool
  lastChecked : Bool
  ruleAllows : String → Bool

/-- base_scraper.getRobotsParser: builds the parser and calls read();
a non-HTTP failure of read() is caught and logged, leaving the default
parser (no flags, never checked) in the cache. -/
def getRobotsParser (outcome : RobotsFetchOutcome) : RobotFileParserState :=
  match outcome with
  | RobotsFetchOutcome.ok f =>
      { disallow_all := false, allow_all := false, lastChecked := true, ruleAllows := f }
  | RobotsFetchOutcome.httpError c =>
      { disallow_all := c = 401 ∨ c = 403
        allow_all := ¬(c = 401 ∨ c = 403) ∧ 400 ≤ c ∧ c < 500
        lastChecked := false
        ruleAllows := fun _ => false }
  | RobotsFetchOutcome.netError _ =>
      { disallow_all := false, allow_all := false, lastChecked := false
        ruleAllows := fun _ => false }

/-- urllib's RobotFileParser.can_fetch on the cached parser state. -/
def robotparserCanFetch (rp : RobotFileParserState) (url : String) : Bool :=
  if rp.disallow_all then false
  else if rp.allow_all then true
  else if ¬rp.lastChecked then false
  else rp.ruleAllows url

/-- base_scraper.can_fetch: wraps the robots.can_fetch call; `eval` is
the outcome of that call (Except.error when the parser evaluation itself
raised), and the wrapper fails open (returns true) only in that
exceptional case. -/
def can_fetch (eval : Except String Bool) : Bool :=
  match eval with
  | Except.ok b => b
  | Except.error _ => true

/-- The robots permission computed for a URL exactly as the scrapers do:
the parser evaluation does not raise on any RobotFileParserState, so the
wrapper sees Except.ok. -/
def permits (rp : RobotFileParserState) (url : String) : Bool :=
  can_fetch (Except.ok (robotparserCanFetch rp url))

/-! ## Source adapters: pagination loops

scrape_indeed_search / scrape_linkedin_search.  The HTTP fetch of a
results page and its HTML parse are abstracted per page offset: for a
given query/location, the page at offset `start` either fails to fetch
(the exception swallowed by the `except` around fetch_with_retry) or
yields the stub list that parse_*_search_html would return.  The
embedding additionally records the list of page offsets for which a
search HTTP request was issued (URL-encoding of the query into the
request URL is elided; offset `start` stands for the GET of the search
URL with that start parameter). -/

/-- Behaviour of fetching and parsing one search-results page, keyed by
the start offset. -/
structure PageEnv where
  fetch : Nat → Except String Unit
  parse : Nat → List Stub

/-- Inner per-page loop of both search functions: walk the parsed stubs,
dedup within this search call by `keyOf`, append survivors, and break as
soon as max_results stubs have been collected. -/
def collectPage (keyOf : Stub → String) (maxResults : Nat) :
    List Stub → List Stub → List String → List Stub × List String
  | [], jobs, seen => (jobs, seen)
  | j :: rest, jobs, seen =>
      let next : List Stub × List String :=
        if keyOf j ∈ seen then (jobs, seen) else (jobs ++ [j], seen ++ [keyOf j])
      if maxResults ≤ next.1.length then next
      else collectPage keyOf maxResults rest next.1 next.2

/-- Python's range(0, stop, step) for step > 0. -/
def pyRange (stop step : Nat) : List Nat :=
  (List.range ((stop + step - 1) / step)).map (· * step)

/-- Outer pagination loop shared by both search functions.  For each
remaining offset: evaluate the robots advisory (the source only logs it
and proceeds), issue the page request, break on a fetch failure, break
when the page parses to zero stubs, collect otherwise, and break when
max_results is reached.  Returns the collected stubs together with the
offsets requested by this loop, in order. -/
def searchLoop (env : PageEnv) (rp : RobotFileParserState)
    (urlOf : Nat → String) (keyOf : Stub → String) (maxResults : Nat) :
    List Nat → List Stub → List String → List Stub × List Nat
  | [], jobs, _ => (jobs, [])
  | s :: rest, jobs, seen =>
      let _advisory := permits rp (urlOf s)
      match env.fetch s with
      | Except.error _ => (jobs, [s])
      | Except.ok _ =>
          let page := env.parse s
          if page.isEmpty then (jobs, [s])
          else
            let collected := collectPage keyOf maxResults page jobs seen
            if maxResults ≤ collected.1.length then (collected.1, [s])
            else
              let r := searchLoop env rp urlOf keyOf maxResults rest collected.1 collected.2
              (r.1, s :: r.2)

/-- Search URL built by scrape_indeed_search for one page (quote_plus
URL-encoding of query/location elided). -/
def indeedSearchUrl (query location : String) (start : Nat) : String :=
  "https://www.indeed.com/jobs?q=" ++ query ++ "&l=" ++ location ++
    "&start=" ++ toString start

/-- Search URL built by scrape_linkedin_search for one page. -/
def linkedinSearchUrl (query location : String) (start : Nat) : String :=
  "https://www.linkedin.com/jobs-guest/jobs/api/seeMoreJobPostings/search?keywords=" ++
    query ++ "&location=" ++ location ++ "&start=" ++ toString start

/-- indeed_scraper.scrape_indeed_search: offsets step by 10 over
min(max_results, 50); within-call dedup key is the stub's job_url; the
result list is finally capped at max_results. -/
def scrape_indeed_search (rp : RobotFileParserState) (env : PageEnv)
    (query location : String) (max_results : Nat) : List Stub × List Nat :=
  let starts := pyRange (min max_results 50) 10
  let r := searchLoop env rp (indeedSearchUrl query location)
    (fun st => st.job_url) max_results starts [] []
  (r.1.take max_results, r.2)

/-- linkedin_scraper.scrape_linkedin_search: offsets step by 25 over
min(max_results, 50); within-call dedup key is the stub's job_id (the
parser always populates that key). -/
def scrape_linkedin_search (rp : RobotFileParserState) (env : PageEnv)
    (query location : String) (max_results : Nat) : List Stub × List Nat :=
  let starts := pyRange (min max_results 50) 25
  let r := searchLoop env rp (linkedinSearchUrl query location)
    (fun st => st.job_id) max_results starts [] []
  (r.1.take max_results, r.2)

/-! ## Detail fetchers

fetch_indeed_job_detail / fetch_linkedin_job_detail wrap the whole fetch
and parse in try/except and return "" on any failure.  The environment
value is the outcome of the inner fetch_with_retry plus parse: a parsed
description text on success (parse_*_detail_html returns "" when no
selector matches and never raises), or the raised exception. -/

/-- indeed_scraper.fetch_indeed_job_detail: the except branch maps every
failure to the empty string, so the function always returns text. -/
def fetch_indeed_job_detail (inner : Except String String) : String :=
  match inner with
  | Except.ok text => text
  | Except.error _ => ""

/-- linkedin_scraper.fetch_linkedin_job_detail: identical failure
handling. -/
def fetch_linkedin_job_detail (inner : Except String String) : String :=
  match inner with
  | Except.ok text => text
  | Except.error _ => ""

/-! ## Run orchestrator: orchestrator.run_scrape

For the orchestrator and the discovery pipeline, a source's whole search
call and its per-listing detail fetch are abstracted as environment
fields: `search` is what scrape_*_search returns or raises at the call
site in _scrape_source_* (the Python call can raise, e.g. out of the
HTML parser, and the orchestrator catches exactly that), and
`fetchDetail key` is what fetch_*_job_detail returns or raises for the
given key (job_url on Indeed, job_id on LinkedIn). -/

/-- Environment of one source inside the orchestrator. -/
structure SourceEnv where
  search : Except String (List Stub)
  fetchDetail : String → Except String String

/-- State threaded through the per-stub loop of _scrape_source_indeed /
_scrape_source_linkedin: the run-wide seen-URL set, the persisted
records, and the per-source counters. -/
structure OrchState where
  existing : List String
  db : List Job
  result : ScrapeResult
deriving DecidableEq, Repr

/-- Python's str.strip(): remove whitespace from both ends (written over
the character list so that it evaluates by kernel reduction). -/
def pyStrip (s : String) : String :=
  String.mk
    (((s.data.dropWhile Char.isWhitespace).reverse.dropWhile
      Char.isWhitespace).reverse)

/-- orchestrator._stub_to_job. -/
def stub_to_job (stub : Stub) (description : String) : Job :=
  { company_name := if stub.company_name = "" then "Unknown" else stub.company_name
    job_title := if stub.job_title = "" then "Unknown" else stub.job_title
    job_description := if description = "" then stub.snippet else description
    location := stub.location
    job_url := stub.job_url
    source := stub.source
    posted_date := stub.posted_date }

/-- Body of the per-stub loop in _scrape_source_indeed (detailKey =
job_url) and _scrape_source_linkedin (detailKey = job_id): skip and
count duplicates; otherwise attempt enrichment when fetch_details is on
and the detail key is non-empty, counting a non-empty detail text as
enriched and recording a truncated error message when the fetch raises;
fall back to the snippet; discard listings with under 20 characters of
stripped description and no title; otherwise persist, mark the URL seen
and count it new. -/
def scrapeStubStep (detailKey : Stub → String)
    (fetchDetail : String → Except String String) (fetch_details : Bool)
    (st : OrchState) (stub : Stub) : OrchState :=
  let url := stub.job_url
  if url ∈ st.existing then
    { st with result := { st.result with
        jobs_skipped_duplicate := st.result.jobs_skipped_duplicate + 1 } }
  else
    let fetched : String × Nat × List String :=
      if fetch_details ∧ detailKey stub ≠ "" then
        match fetchDetail (detailKey stub) with
        | Except.ok d => (d, if d ≠ "" then 1 else 0, [])
        | Except.error e => ("", 0, ["Detail fetch: " ++ e.take 100])
      else ("", 0, [])
    let description := if fetched.1 = "" then stub.snippet else fetched.1
    let result := { st.result with
        jobs_enriched := st.result.jobs_enriched + fetched.2.1
        errors := st.result.errors ++ fetched.2.2 }
    if (pyStrip description).length < 20 ∧ stub.job_title = "" then
      { st with result := result }
    else
      { existing := st.existing ++ [url]
        db := st.db ++ [stub_to_job stub description]
        result := { result with jobs_new := result.jobs_new + 1 } }

/-- _scrape_source_indeed / _scrape_source_linkedin (they differ only in
the source tag and the detail key): a raised search is caught and
recorded as the sole error of the outcome, leaving the seen set and the
database untouched; otherwise jobs_found is the stub count and the
per-stub loop runs. -/
def scrape_source (source : String) (detailKey : Stub → String)
    (env : SourceEnv) (fetch_details : Bool)
    (existing : List String) (db : List Job) : OrchState :=
  match env.search with
  | Except.error e =>
      { existing := existing, db := db
        result := { source := source, errors := ["Search failed: " ++ e.take 200] } }
  | Except.ok stubs =>
      stubs.foldl (scrapeStubStep detailKey env.fetchDetail fetch_details)
        { existing := existing, db := db
          result := { source := source, jobs_found := stubs.length } }

/-- Environments of the two known sources. -/
structure RunEnv where
  indeed : SourceEnv
  linkedin : SourceEnv

/-- Loop over the requested source names in run_scrape: known names run
their source and append the outcome and its new-count; unknown names are
logged and skipped. -/
def runScrapeLoop (env : RunEnv) (fetch_details : Bool) :
    List String → List String → List Job → ScrapeReport →
    ScrapeReport × List Job × List String
  | [], existing, db, report => (report, db, existing)
  | s :: rest, existing, db, report =>
      if s = "indeed" then
        let o := scrape_source "indeed" (fun stub => stub.job_url) env.indeed
          fetch_details existing db
        runScrapeLoop env fetch_details rest o.existing o.db
          { results := report.results ++ [o.result]
            total_new := report.total_new + o.result.jobs_new }
      else if s = "linkedin" then
        let o := scrape_source "linkedin" (fun stub => stub.job_id) env.linkedin
          fetch_details existing db
        runScrapeLoop env fetch_details rest o.existing o.db
          { results := report.results ++ [o.result]
            total_new := report.total_new + o.result.jobs_new }
      else
        runScrapeLoop env fetch_details rest existing db report

/-- orchestrator.run_scrape: short-circuits to an empty report when
scraping is disabled; otherwise seeds the dedup set with the job_urls
already persisted (the _get_existing_urls DB read, abstracted as the
`seed` parameter) and folds the requested sources.  Returns the report,
the records handed to db.add during the run, and the final seen set. -/
def run_scrape (env : RunEnv) (enabled : Bool) (sources : List String)
    (seed : List String) (fetch_details : Bool) :
    ScrapeReport × List Job × List String :=
  if enabled then runScrapeLoop env fetch_details sources seed [] {}
  else ({}, [], seed)

/-! ## Discovery pipeline: deep_research.run_deep_research -/

/-- deep_research.CompanyInfo, one research target. -/
structure CompanyInfo where
  name : String
  reason : String
  industry : String
deriving DecidableEq, Repr

/-- Failure of the _research_companies call as caught at the call site:
an LLMServiceError or any other exception (the two branches emit
different error-message prefixes). -/
inductive ResearchErr where
  | llm (msg : String)
  | unexpected (msg : String)
deriving DecidableEq, Repr

/-- Progress event yielded by the run_deep_research async generator,
with the payload fields the claims are about. -/
inductive Ev where
  | research_start
  | companies_found (count : Nat)
  | searching_company (index : Nat) (name : String)
  | company_done (name : String) (found : Nat) (new : Nat) (status : String)
      (err : Option String)
  | complete (total_new : Nat)
  | error (message : String)
deriving DecidableEq, Repr

/-- Kind tag of an event, for stating the event-sequence shape. -/
inductive EvTag where
  | rs
  | cf
  | s (index : Nat)
  | d
  | c
  | e
deriving DecidableEq, Repr

/-- Project an event to its kind tag. -/
def evTag : Ev → EvTag
  | Ev.research_start => EvTag.rs
  | Ev.companies_found _ => EvTag.cf
  | Ev.searching_company i _ => EvTag.s i
  | Ev.company_done _ _ _ _ _ => EvTag.d
  | Ev.complete _ => EvTag.c
  | Ev.error _ => EvTag.e

/-- Environment of one pipeline run: the outcome of _research_companies,
the outcome of scrape_linkedin_search per query string, and the outcome
of fetch_linkedin_job_detail per job_id. -/
structure DeepEnv where
  research : Except ResearchErr (List CompanyInfo)
  search : String → Except String (List Stub)
  fetchDetail : String → Except String String

/-- State threaded through the per-stub loop of one company in
run_deep_research. -/
structure DeepState where
  existing : List String
  db : List Job
  company_new : Nat
deriving DecidableEq, Repr

/-- Body of the per-stub loop inside run_deep_research: skip silent on a
seen URL; otherwise attempt enrichment when fetch_details is on and the
stub has a job_id, swallowing a raised detail fetch with a bare pass;
fall back to the snippet; persist unconditionally with company_name
defaulted to the researched company's name, source tag deep_research,
mark the URL seen, and count it new. -/
def deepStubStep (fetchDetail : String → Except String String)
    (fetch_details : Bool) (companyName : String)
    (st : DeepState) (stub : Stub) : DeepState :=
  let url := stub.job_url
  if url ∈ st.existing then st
  else
    let fetched : String :=
      if fetch_details ∧ stub.job_id ≠ "" then
        match fetchDetail stub.job_id with
        | Except.ok d => d
        | Except.error _ => ""
      else ""
    let description := if fetched = "" then stub.snippet else fetched
    let job : Job :=
      { company_name := if stub.company_name = "" then companyName else stub.company_name
        job_title := if stub.job_title = "" then "Unknown" else stub.job_title
        job_description := description
        location := stub.location
        job_url := url
        source := "deep_research"
        posted_date := stub.posted_date }
    { existing := st.existing ++ [url]
      db := st.db ++ [job]
      company_new := st.company_new + 1 }

/-- Accumulated phase-2 state of the pipeline. -/
structure DeepRunState where
  existing : List String
  db : List Job
  total_new : Nat
deriving DecidableEq, Repr

/-- Phase 2 of run_deep_research: per company (in returned order, index
i) emit searching_company, run the scoped search (query = role, space,
company name), on a raised search emit a company_done with status error
and zeroed counts and continue, otherwise run the per-stub loop and emit
a company_done carrying found = stub count and new = count persisted for
this company.  Returns the emitted events and the final state. -/
def deepLoop (env : DeepEnv) (role : String) (fetch_details : Bool) :
    List CompanyInfo → Nat → DeepRunState → List Ev × DeepRunState
  | [], _, st => ([], st)
  | company :: rest, i, st =>
      let started := Ev.searching_company i company.name
      match env.search (role ++ " " ++ company.name) with
      | Except.error err =>
          let r := deepLoop env role fetch_details rest (i + 1) st
          (started ::
            Ev.company_done company.name 0 0 "error" (some (err.take 100)) :: r.1,
           r.2)
      | Except.ok stubs =>
          let cst := stubs.foldl
            (deepStubStep env.fetchDetail fetch_details company.name)
            { existing := st.existing, db := st.db, company_new := 0 }
          let r := deepLoop env role fetch_details rest (i + 1)
            { existing := cst.existing, db := cst.db
              total_new := st.total_new + cst.company_new }
          (started ::
            Ev.company_done company.name stubs.length cst.company_new "done" none ::
            r.1,
           r.2)

/-- Result of one whole pipeline run: the ordered event stream, the
records handed to db.add, the final seen set and the total saved. -/
structure DeepOutcome where
  events : List Ev
  db : List Job
  existing : List String
  total_new : Nat
deriving DecidableEq, Repr

/-- deep_research.run_deep_research: emit research_start; a raised
research call or an empty company list yields a terminal error event and
nothing else; otherwise emit companies_found, seed the dedup set from
persistence (the _get_existing_urls read, abstracted as `seed`), run
phase 2 and emit the terminal complete event. -/
def run_deep_research (env : DeepEnv) (role : String) (fetch_details : Bool)
    (seed : List String) : DeepOutcome :=
  match env.research with
  | Except.error (ResearchErr.llm m) =>
      { events := [Ev.research_start, Ev.error ("Research failed: " ++ m.take 200)]
        db := [], existing := seed, total_new := 0 }
  | Except.error (ResearchErr.unexpected m) =>
      { events := [Ev.research_start, Ev.error ("Unexpected error: " ++ m.take 200)]
        db := [], existing := seed, total_new := 0 }
  | Except.ok companies =>
      if companies.isEmpty then
        { events := [Ev.research_start,
            Ev.error "Could not identify companies. Try a different role."]
          db := [], existing := seed, total_new := 0 }
      else
        let r := deepLoop env role fetch_details companies 0
          { existing := seed, db := [], total_new := 0 }
        { events := Ev.research_start :: Ev.companies_found companies.length ::
            r.1 ++ [Ev.complete r.2.total_new]
          db := r.2.db, existing := r.2.existing, total_new := r.2.total_new }

/-! ## Helper lemmas -/

/-- The per-stub loop never changes the source tag of the outcome. -/
theorem scrapeStubStep_result_source (dk : Stub → String)
    (f : String → Except String String) (fd : Bool) (st : OrchState) (stub : Stub) :
    (scrapeStubStep dk f fd st stub).result.source = st.result.source := by
  unfold scrapeStubStep
  dsimp only
  repeat' split
  all_goals rfl

/-- Folded version of scrapeStubStep_result_source. -/
theorem scrapeFold_result_source (dk : Stub → String)
    (f : String → Except String String) (fd : Bool) :
    ∀ (stubs : List Stub) (st : OrchState),
    ((stubs.foldl (scrapeStubStep dk f fd) st).result).source = st.result.source := by
  intro stubs
  induction stubs with
  | nil => intro st; rfl
  | cons stub rest ih =>
      intro st
      rw [List.foldl_cons, ih, scrapeStubStep_result_source]

/-- scrape_source stamps its source argument on the outcome. -/
theorem scrape_source_result_source (source : String) (dk : Stub → String)
    (env : SourceEnv) (fd : Bool) (existing : List String) (db : List Job) :
    (scrape_source source dk env fd existing db).result.source = source := by
  unfold scrape_source
  cases env.search with
  | error e => rfl
  | ok stubs => rw [scrapeFold_result_source]

/-- Unknown source names contribute nothing to the run loop. -/
theorem runScrapeLoop_filter_known (env : RunEnv) (fd : Bool) :
    ∀ (sources : List String) (existing : List String) (db : List Job)
      (report : ScrapeReport),
    runScrapeLoop env fd sources existing db report =
      runScrapeLoop env fd
        (sources.filter (fun s => s == "indeed" || s == "linkedin"))
        existing db report := by
  intro sources
  induction sources with
  | nil => intro existing db report; rfl
  | cons s rest ih =>
      intro existing db report
      by_cases hi : s = "indeed"
      · subst hi
        have hf : ("indeed" :: rest).filter (fun s => s == "indeed" || s == "linkedin") =
            "indeed" :: rest.filter (fun s => s == "indeed" || s == "linkedin") := by
          simp [List.filter_cons]
        rw [hf]
        simp only [runScrapeLoop, if_pos rfl]
        exact ih _ _ _
      · by_cases hl : s = "linkedin"
        · subst hl
          have hf : ("linkedin" :: rest).filter (fun s => s == "indeed" || s == "linkedin") =
              "linkedin" :: rest.filter (fun s => s == "indeed" || s == "linkedin") := by
            simp [List.filter_cons]
          rw [hf]
          simp only [runScrapeLoop, if_neg (by decide : ¬("linkedin" = "indeed")),
            if_pos rfl]
          exact ih _ _ _
        · have hf : (s :: rest).filter (fun s => s == "indeed" || s == "linkedin") =
              rest.filter (fun s => s == "indeed" || s == "linkedin") := by
            simp [List.filter_cons, hi, hl]
          rw [hf]
          simp only [runScrapeLoop, if_neg hi, if_neg hl]
          exact ih _ _ _

/-- Every outcome appended by the run loop carries a recognized source
tag. -/
theorem runScrapeLoop_sources_known (env : RunEnv) (fd : Bool) :
    ∀ (sources : List String) (existing : List String) (db : List Job)
      (report : ScrapeReport),
    report.results.all (fun r => r.source == "indeed" || r.source == "linkedin") →
    ((runScrapeLoop env fd sources existing db report).1.results.all
      (fun r => r.source == "indeed" || r.source == "linkedin")) = true := by
  intro sources
  induction sources with
  | nil => intro existing db report h; exact h
  | cons s rest ih =>
      intro existing db report h
      by_cases hi : s = "indeed"
      · subst hi
        simp only [runScrapeLoop, if_pos rfl]
        apply ih
        simp only [List.all_append, h, Bool.true_and, List.all_cons, List.all_nil,
          Bool.and_true]
        rw [scrape_source_result_source]
        rfl
      · by_cases hl : s = "linkedin"
        · subst hl
          simp only [runScrapeLoop, if_neg hi, if_pos rfl]
          apply ih
          simp only [List.all_append, h, Bool.true_and, List.all_cons, List.all_nil,
            Bool.and_true]
          rw [scrape_source_result_source]
          rfl
        · simp only [runScrapeLoop, if_neg hi, if_neg hl]
          exact ih _ _ _ h

/-! ## Claim C10 -/

/-- C10: for every requested source name other than indeed or linkedin,
run_scrape silently skips the name: the report is exactly the report of
the recognized sub-list of sources (so no outcome entry, no error string
and no total_new contribution for the unknown name), and every outcome
in the report belongs to a recognized source. -/
theorem run_scrape_skips_unknown_sources (env : RunEnv) (enabled : Bool)
    (sources : List String) (seed : List String) (fd : Bool) :
    run_scrape env enabled sources seed fd =
      run_scrape env enabled
        (sources.filter (fun s => s == "indeed" || s == "linkedin")) seed fd ∧
    ((run_scrape env enabled sources seed fd).1.results.all
      (fun r => r.source == "indeed" || r.source == "linkedin")) = true := by
  constructor
  · unfold run_scrape
    cases enabled
    · rfl
    · simp only [if_pos rfl]
      exact runScrapeLoop_filter_known env fd sources seed [] {}
  · unfold run_scrape
    cases enabled
    · rfl
    · simp only [if_pos rfl]
      exact runScrapeLoop_sources_known env fd sources seed [] {} rfl

/-! ## Claim C3 -/

/-- On a list of attempt indices that all yield the same non-2xx,
non-throttle status, fetch_with_retry's loop catches the HTTPStatusError
from raise_for_status on every attempt and retries; the status error
surfaces only after the last attempt. -/
theorem fetchWithRetryGo_const_status {s : Nat} (b : String)
    (h2xx : ¬(200 ≤ s ∧ s < 300)) (h429 : s ≠ 429) (h503 : s ≠ 503) :
    ∀ (l : List Nat) (lastError : Option FetchError), l ≠ [] →
    fetchWithRetryGo (fun _ => AttemptOutcome.response s b) l lastError =
      (Except.error (FetchError.httpStatus s), l) := by
  intro l
  induction l with
  | nil => intro lastError h; exact absurd rfl h
  | cons i rest ih =>
      intro lastError _
      show fetchWithRetryGo _ (i :: rest) lastError = _
      rw [fetchWithRetryGo]
      dsimp only
      rw [if_neg (by tauto), if_neg h2xx]
      cases rest with
      | nil => rfl
      | cons j rs => rw [ih _ (by simp)]

/-- C3 counterexample: with every attempt answering 404 (not found) and
three allowed attempts, fetch_with_retry issues all three HTTP attempts
before raising; the 404 is not raised immediately after the first
attempt, contrary to the claim. -/
theorem fetch_with_retry_not_found_counterexample :
    (fetch_with_retry (fun _ => AttemptOutcome.response 404 "nf") 3).2 = [0, 1, 2] ∧
    (fetch_with_retry (fun _ => AttemptOutcome.response 404 "nf") 3).1 =
      Except.error (FetchError.httpStatus 404) ∧
    (fetch_with_retry (fun _ => AttemptOutcome.response 404 "nf") 3).2 ≠ [0] :=
  ⟨by decide, rfl, by decide⟩

/-- C3 amended: a response whose status is non-2xx and not a throttle
status (429/503) makes resp.raise_for_status() raise
httpx.HTTPStatusError, which is a subclass of httpx.HTTPError and is
therefore caught by the retry handler like a transport failure: the
request is retried on every remaining attempt, and the status error is
raised to the caller only after the final attempt. -/
theorem fetch_with_retry_nontransient_retried (s : Nat) (b : String) (retries : Nat)
    (h2xx : ¬(200 ≤ s ∧ s < 300)) (h429 : s ≠ 429) (h503 : s ≠ 503)
    (hr : 1 ≤ retries) :
    fetch_with_retry (fun _ => AttemptOutcome.response s b) retries =
      (Except.error (FetchError.httpStatus s), List.range retries) := by
  unfold fetch_with_retry
  apply fetchWithRetryGo_const_status b h2xx h429 h503
  simpa using Nat.pos_iff_ne_zero.mp hr

/-- Witness for C3's amended theorem at status 404 and three attempts. -/
theorem fetch_with_retry_nontransient_retried_witness :
    fetch_with_retry (fun _ => AttemptOutcome.response 404 "nf") 3 =
      (Except.error (FetchError.httpStatus 404), List.range 3) :=
  fetch_with_retry_nontransient_retried 404 "nf" 3 (by decide) (by decide)
    (by decide) (by decide)

/-! ## Claim C8 -/

/-- Appending detail-fetch outcomes that never raise leaves the error
list of the per-stub loop untouched. -/
theorem scrapeStubStep_errors_total_detail (dk : Stub → String)
    (g : String → String) (fd : Bool) (st : OrchState) (stub : Stub) :
    (scrapeStubStep dk (fun k => Except.ok (g k)) fd st stub).result.errors =
      st.result.errors := by
  unfold scrapeStubStep
  dsimp only
  repeat' split
  all_goals simp

/-- Folded version of scrapeStubStep_errors_total_detail. -/
theorem scrapeFold_errors_total_detail (dk : Stub → String)
    (g : String → String) (fd : Bool) :
    ∀ (stubs : List Stub) (st : OrchState),
    ((stubs.foldl (scrapeStubStep dk (fun k => Except.ok (g k)) fd) st).result).errors =
      st.result.errors := by
  intro stubs
  induction stubs with
  | nil => intro st; rfl
  | cons stub rest ih =>
      intro st
      rw [List.foldl_cons, ih, scrapeStubStep_errors_total_detail]

/-- C8: fetch_indeed_job_detail and fetch_linkedin_job_detail map every
raised failure to empty text instead of propagating it, so when the
orchestrator's per-stub enrichment runs on top of them its
detail-fetch error branch is unreachable: the outcome's error list is
exactly the search-failure message on a raised search and empty
otherwise, and no Detail fetch error is ever appended. -/
theorem enrichment_failures_never_surfaced
    (inner : String → Except String String) (search : Except String (List Stub))
    (source : String) (dk : Stub → String) (fd : Bool)
    (existing : List String) (db : List Job) :
    (∀ e, fetch_indeed_job_detail (Except.error e) = "" ∧
      fetch_linkedin_job_detail (Except.error e) = "") ∧
    (scrape_source source dk
        { search := search
          fetchDetail := fun k => Except.ok (fetch_indeed_job_detail (inner k)) }
        fd existing db).result.errors =
      (match search with
       | Except.ok _ => []
       | Except.error e => ["Search failed: " ++ e.take 200]) ∧
    (scrape_source source dk
        { search := search
          fetchDetail := fun k => Except.ok (fetch_linkedin_job_detail (inner k)) }
        fd existing db).result.errors =
      (match search with
       | Except.ok _ => []
       | Except.error e => ["Search failed: " ++ e.take 200]) := by
  refine ⟨fun e => ⟨rfl, rfl⟩, ?_, ?_⟩ <;>
    · unfold scrape_source
      cases search with
      | error e => rfl
      | ok stubs => rw [scrapeFold_errors_total_detail]

/-! ## Claim C9 -/

/-- Unfolded step equation of the pagination loop. -/
theorem searchLoop_cons (env : PageEnv) (rp : RobotFileParserState)
    (urlOf : Nat → String) (keyOf : Stub → String) (maxResults : Nat)
    (s : Nat) (rest : List Nat) (jobs : List Stub) (seen : List String) :
    searchLoop env rp urlOf keyOf maxResults (s :: rest) jobs seen =
      match env.fetch s with
      | Except.error _ => (jobs, [s])
      | Except.ok _ =>
          if (env.parse s).isEmpty then (jobs, [s])
          else if maxResults ≤
              (collectPage keyOf maxResults (env.parse s) jobs seen).1.length then
            ((collectPage keyOf maxResults (env.parse s) jobs seen).1, [s])
          else
            ((searchLoop env rp urlOf keyOf maxResults rest
                (collectPage keyOf maxResults (env.parse s) jobs seen).1
                (collectPage keyOf maxResults (env.parse s) jobs seen).2).1,
             s :: (searchLoop env rp urlOf keyOf maxResults rest
                (collectPage keyOf maxResults (env.parse s) jobs seen).1
                (collectPage keyOf maxResults (env.parse s) jobs seen).2).2) := rfl

/-- The pagination loop issues at most one request per available page
offset. -/
theorem searchLoop_reqs_length (env : PageEnv) (rp : RobotFileParserState)
    (urlOf : Nat → String) (keyOf : Stub → String) (maxResults : Nat) :
    ∀ (starts : List Nat) (jobs : List Stub) (seen : List String),
    ((searchLoop env rp urlOf keyOf maxResults starts jobs seen).2).length ≤
      starts.length := by
  intro starts
  induction starts with
  | nil => intro jobs seen; simp [searchLoop]
  | cons s rest ih =>
      intro jobs seen
      rw [searchLoop_cons]
      cases env.fetch s with
      | error e => simp
      | ok u =>
          by_cases hp : (env.parse s).isEmpty = true
          · rw [if_pos hp]
            simp
          · rw [if_neg hp]
            by_cases hcap : maxResults ≤
                (collectPage keyOf maxResults (env.parse s) jobs seen).1.length
            · rw [if_pos hcap]; simp
            · rw [if_neg hcap]
              simpa using ih _ _

/-- A requested page that was fetched and parsed to zero stubs is the
last page the loop requested: pagination halts there. -/
theorem searchLoop_empty_is_last (env : PageEnv) (rp : RobotFileParserState)
    (urlOf : Nat → String) (keyOf : Stub → String) (maxResults : Nat) :
    ∀ (starts : List Nat) (jobs : List Stub) (seen : List String),
    ∀ s ∈ (searchLoop env rp urlOf keyOf maxResults starts jobs seen).2,
      env.fetch s = Except.ok () → (env.parse s).isEmpty = true →
      (searchLoop env rp urlOf keyOf maxResults starts jobs seen).2.getLast? =
        some s := by
  intro starts
  induction starts with
  | nil => intro jobs seen s hs; simp [searchLoop] at hs
  | cons st rest ih =>
      intro jobs seen s hs hf hp
      rw [searchLoop_cons] at hs ⊢
      generalize hfetch : env.fetch st = fe at hs ⊢
      cases fe with
      | error e =>
          try dsimp only at hs ⊢
          simp only [List.mem_singleton] at hs
          subst hs
          rw [hf] at hfetch
          exact absurd hfetch (by simp)
      | ok u =>
          cases u
          try dsimp only at hs ⊢
          by_cases hp0 : (env.parse st).isEmpty = true
          · rw [if_pos hp0] at hs ⊢
            simp only [List.mem_singleton] at hs
            subst hs
            simp
          · rw [if_neg hp0] at hs ⊢
            by_cases hcap : maxResults ≤
                (collectPage keyOf maxResults (env.parse st) jobs seen).1.length
            · rw [if_pos hcap] at hs ⊢
              simp only [List.mem_singleton] at hs
              subst hs
              simp
            · rw [if_neg hcap] at hs ⊢
              try dsimp only at hs ⊢
              rcases List.mem_cons.mp hs with h | h
              · subst h
                exact absurd hp hp0
              · have htail := ih _ _ s h hf hp
                cases htl : (searchLoop env rp urlOf keyOf maxResults rest
                    (collectPage keyOf maxResults (env.parse st) jobs seen).1
                    (collectPage keyOf maxResults (env.parse st) jobs seen).2).2 with
                | nil => rw [htl] at h; simp at h
                | cons a as =>
                    rw [List.getLast?_cons_cons]
                    rw [htl] at htail
                    exact htail

/-- Number of pages stepped over by Python's range(0, stop, step). -/
theorem pyRange_length (stop step : Nat) :
    (pyRange stop step).length = (stop + step - 1) / step := by
  simp [pyRange]

/-- C9: for both adapters, a fetched page that yields zero stubs is the
last page requested (the loop halts there even when fewer than
max_results stubs were collected), and the number of page requests is
bounded by the page-size stepping over min(max_results, 50): ceil by 10
on Indeed and by 25 on LinkedIn. -/
theorem pagination_halts_on_empty_page (env : PageEnv)
    (rp : RobotFileParserState) (query location : String) (max_results : Nat) :
    ((scrape_indeed_search rp env query location max_results).2.length ≤
      (min max_results 50 + 9) / 10) ∧
    ((scrape_linkedin_search rp env query location max_results).2.length ≤
      (min max_results 50 + 24) / 25) ∧
    (∀ s ∈ (scrape_indeed_search rp env query location max_results).2,
      env.fetch s = Except.ok () → (env.parse s).isEmpty = true →
      (scrape_indeed_search rp env query location max_results).2.getLast? =
        some s) ∧
    (∀ s ∈ (scrape_linkedin_search rp env query location max_results).2,
      env.fetch s = Except.ok () → (env.parse s).isEmpty = true →
      (scrape_linkedin_search rp env query location max_results).2.getLast? =
        some s) := by
  refine ⟨?_, ?_, ?_, ?_⟩
  · have h := searchLoop_reqs_length env rp (indeedSearchUrl query location)
      (fun st => st.job_url) max_results (pyRange (min max_results 50) 10) [] []
    rw [pyRange_length] at h
    exact h
  · have h := searchLoop_reqs_length env rp (linkedinSearchUrl query location)
      (fun st => st.job_id) max_results (pyRange (min max_results 50) 25) [] []
    rw [pyRange_length] at h
    exact h
  · exact searchLoop_empty_is_last env rp (indeedSearchUrl query location)
      (fun st => st.job_url) max_results (pyRange (min max_results 50) 10) [] []
  · exact searchLoop_empty_is_last env rp (linkedinSearchUrl query location)
      (fun st => st.job_id) max_results (pyRange (min max_results 50) 25) [] []

/-- Concrete page environment for the C9 witness: page offset 0 parses
to one stub, every later page parses to zero stubs, all fetches
succeed. -/
def c9Stub : Stub :=
  { job_title := "Engineer", company_name := "Acme", location := none
    job_url := "https://www.indeed.com/viewjob?jk=1", job_id := "1000001"
    snippet := "Build backend services in Python.", posted_date := none
    source := "indeed" }

/-- Page environment used by the C9 witness. -/
def c9Env : PageEnv :=
  { fetch := fun _ => Except.ok ()
    parse := fun s => if s = 0 then [c9Stub] else [] }

/-- Robots state used by concrete witnesses (a parsed policy allowing
everything). -/
def allowAllRobots : RobotFileParserState :=
  getRobotsParser (RobotsFetchOutcome.ok (fun _ => true))

/-- Witness for C9: with 25 requested results, the Indeed loop requests
page 0 (one stub) and page 10 (zero stubs) and halts there short of
max_results, within the page bound. -/
theorem pagination_halts_on_empty_page_witness :
    (scrape_indeed_search allowAllRobots c9Env "python" "" 25).2 = [0, 10] ∧
    (scrape_indeed_search allowAllRobots c9Env "python" "" 25).1 = [c9Stub] ∧
    ((scrape_indeed_search allowAllRobots c9Env "python" "" 25).2.length ≤
        (min 25 50 + 9) / 10 ∧
      (scrape_linkedin_search allowAllRobots c9Env "python" "" 25).2.length ≤
        (min 25 50 + 24) / 25 ∧
      (∀ s ∈ (scrape_indeed_search allowAllRobots c9Env "python" "" 25).2,
        c9Env.fetch s = Except.ok () → (c9Env.parse s).isEmpty = true →
        (scrape_indeed_search allowAllRobots c9Env "python" "" 25).2.getLast? =
          some s) ∧
      (∀ s ∈ (scrape_linkedin_search allowAllRobots c9Env "python" "" 25).2,
        c9Env.fetch s = Except.ok () → (c9Env.parse s).isEmpty = true →
        (scrape_linkedin_search allowAllRobots c9Env "python" "" 25).2.getLast? =
          some s)) :=
  ⟨by decide, by decide,
    pagination_halts_on_empty_page c9Env allowAllRobots "python" "" 25⟩

/-! ## Claim C2 -/

/-- Phase 2 of the pipeline emits, for the company at position i, exactly
one searching_company event with index i immediately followed by exactly
one company_done event, for consecutive indices. -/
theorem deepLoop_events_tag (env : DeepEnv) (role : String) (fd : Bool) :
    ∀ (companies : List CompanyInfo) (i : Nat) (st : DeepRunState),
    (deepLoop env role fd companies i st).1.map evTag =
      (List.range' i companies.length).flatMap (fun j => [EvTag.s j, EvTag.d]) := by
  intro companies
  induction companies with
  | nil => intro i st; rfl
  | cons company rest ih =>
      intro i st
      rw [deepLoop]
      cases env.search (role ++ " " ++ company.name) with
      | error err =>
          dsimp only
          rw [List.length_cons, List.range'_succ]
          simp only [List.map_cons, List.flatMap_cons, evTag]
          rw [ih]
          rfl
      | ok stubs =>
          dsimp only
          rw [List.length_cons, List.range'_succ]
          simp only [List.map_cons, List.flatMap_cons, evTag]
          rw [ih]
          rfl

/-- C2: when research returns N >= 1 targets, the pipeline's event
stream is exactly one research-started event, then exactly one
targets-found event, then for each target index 0..N-1 one
target-search-started event immediately followed by that target's
finished event (so target i's finished event precedes target i+1's
started event), then exactly one terminal event (complete). -/
theorem deep_research_event_sequence (env : DeepEnv) (role : String)
    (fd : Bool) (seed : List String) (companies : List CompanyInfo)
    (hres : env.research = Except.ok companies) (hne : companies ≠ []) :
    (run_deep_research env role fd seed).events.map evTag =
      EvTag.rs :: EvTag.cf ::
        ((List.range companies.length).flatMap (fun j => [EvTag.s j, EvTag.d]) ++
          [EvTag.c]) := by
  unfold run_deep_research
  rw [hres]
  dsimp only
  rw [if_neg (by simpa using hne)]
  dsimp only
  simp only [List.map_cons, List.map_append, evTag, List.map_cons, List.map_nil]
  rw [deepLoop_events_tag]
  rw [List.range_eq_range']
  simp

/-- Concrete targets for the C2 witness. -/
def c2Companies : List CompanyInfo :=
  [{ name := "Acme", reason := "strong engineering", industry := "Tech" },
   { name := "Globex", reason := "well funded", industry := "Finance" }]

/-- Concrete pipeline environment for the C2 witness: research succeeds
with two targets, the first target's search returns one stub, the
second target's search raises. -/
def c2Env : DeepEnv :=
  { research := Except.ok c2Companies
    search := fun q => if q = "backend engineer Acme" then Except.ok [c9Stub]
      else Except.error "HTTP 429"
    fetchDetail := fun _ => Except.ok "Full description text for the role." }

/-- Witness for C2 with two targets: the event stream has the exact
claimed shape, one started/finished pair per target and one terminal
complete event, even though the second target's search raised. -/
theorem deep_research_event_sequence_witness :
    (run_deep_research c2Env "backend engineer" true []).events.map evTag =
      EvTag.rs :: EvTag.cf ::
        ((List.range c2Companies.length).flatMap (fun j => [EvTag.s j, EvTag.d]) ++
          [EvTag.c]) :=
  deep_research_event_sequence c2Env "backend engineer" true [] c2Companies rfl
    (by decide)

/-! ## Claim C5 -/

/-- When the detail fetch answers with empty text, the orchestrator's
per-stub step either discards the stub or persists it with the snippet
as description. -/
theorem scrapeStubStep_empty_detail_db (dk : Stub → String)
    (f : String → Except String String) (st : OrchState) (stub : Stub)
    (h1 : stub.job_url ∉ st.existing) (hk : dk stub ≠ "")
    (hf : f (dk stub) = Except.ok "") :
    (scrapeStubStep dk f true st stub).db = st.db ∨
    (scrapeStubStep dk f true st stub).db =
      st.db ++ [stub_to_job stub stub.snippet] := by
  unfold scrapeStubStep
  rw [if_neg h1]
  dsimp only
  rw [if_pos (⟨rfl, hk⟩ : true = true ∧ dk stub ≠ ""), hf]
  dsimp only
  rw [if_pos (rfl : ("" : String) = "")]
  split
  · exact Or.inl rfl
  · exact Or.inr rfl

/-- When the detail fetch answers with empty text, the pipeline's
per-stub step persists the stub with the snippet as description. -/
theorem deepStubStep_empty_detail_db (f : String → Except String String)
    (companyName : String) (dst : DeepState) (stub : Stub)
    (h2 : stub.job_url ∉ dst.existing) (hk : stub.job_id ≠ "")
    (hf : f stub.job_id = Except.ok "") :
    (deepStubStep f true companyName dst stub).db =
      dst.db ++
        [{ company_name := if stub.company_name = "" then companyName
             else stub.company_name
           job_title := if stub.job_title = "" then "Unknown" else stub.job_title
           job_description := stub.snippet
           location := stub.location
           job_url := stub.job_url
           source := "deep_research"
           posted_date := stub.posted_date }] := by
  unfold deepStubStep
  rw [if_neg h2]
  dsimp only
  rw [if_pos (⟨rfl, hk⟩ : true = true ∧ stub.job_id ≠ ""), hf]
  dsimp only
  rw [if_pos (rfl : ("" : String) = "")]

/-- C5: for a stub surviving dedup whose detail fetch returns empty
text, if the stub carries a non-empty snippet then any record persisted
for it — by the orchestrator per-stub step with either detail key, or by
the pipeline per-stub step — has exactly that snippet as its
description and that description is non-empty; and the pipeline step
does persist one such record. -/
theorem snippet_fallback_invariant (f : String → Except String String)
    (st : OrchState) (dst : DeepState) (stub : Stub) (companyName : String)
    (h1 : stub.job_url ∉ st.existing) (h2 : stub.job_url ∉ dst.existing)
    (hurl : stub.job_url ≠ "") (hid : stub.job_id ≠ "")
    (hfu : f stub.job_url = Except.ok "") (hfi : f stub.job_id = Except.ok "")
    (hsnip : stub.snippet ≠ "") :
    (∀ j ∈ (scrapeStubStep (fun x => x.job_url) f true st stub).db,
      j ∈ st.db ∨ (j.job_description = stub.snippet ∧ j.job_description ≠ "")) ∧
    (∀ j ∈ (scrapeStubStep (fun x => x.job_id) f true st stub).db,
      j ∈ st.db ∨ (j.job_description = stub.snippet ∧ j.job_description ≠ "")) ∧
    ((deepStubStep f true companyName dst stub).db.length = dst.db.length + 1) ∧
    (∀ j ∈ (deepStubStep f true companyName dst stub).db,
      j ∈ dst.db ∨ (j.job_description = stub.snippet ∧ j.job_description ≠ "")) := by
  have hdesc : (stub_to_job stub stub.snippet).job_description = stub.snippet := by
    unfold stub_to_job
    dsimp only
    rw [if_neg hsnip]
  have horch : ∀ (dk : Stub → String), dk stub ≠ "" → f (dk stub) = Except.ok "" →
      ∀ j ∈ (scrapeStubStep dk f true st stub).db,
      j ∈ st.db ∨ (j.job_description = stub.snippet ∧ j.job_description ≠ "") := by
    intro dk hk hfk j hj
    rcases scrapeStubStep_empty_detail_db dk f st stub h1 hk hfk with hdb | hdb
    · rw [hdb] at hj
      exact Or.inl hj
    · rw [hdb] at hj
      rcases List.mem_append.mp hj with h | h
      · exact Or.inl h
      · right
        rw [List.mem_singleton.mp h, hdesc]
        exact ⟨rfl, hsnip⟩
  have hdeep := deepStubStep_empty_detail_db f companyName dst stub h2 hid hfi
  refine ⟨horch _ hurl hfu, horch _ hid hfi, ?_, ?_⟩
  · rw [hdeep]
    simp
  · intro j hj
    rw [hdeep] at hj
    rcases List.mem_append.mp hj with h | h
    · exact Or.inl h
    · right
      rw [List.mem_singleton.mp h]
      exact ⟨rfl, hsnip⟩

/-- Stub for the C5 witness: a non-empty snippet and an empty detail
fetch. -/
def c5Stub : Stub :=
  { job_title := "Data Engineer", company_name := "Acme"
    location := some "Remote"
    job_url := "https://www.linkedin.com/jobs/view/2000002", job_id := "2000002"
    snippet := "Design and run data pipelines at scale.", posted_date := none
    source := "linkedin" }

/-- Witness for C5 at a concrete stub and an always-empty detail
fetcher: the pipeline persists one record and every persisted record's
description is the snippet. -/
theorem snippet_fallback_invariant_witness :
    (∀ j ∈ (scrapeStubStep (fun x => x.job_url) (fun _ => Except.ok "") true
        { existing := [], db := [], result := { source := "linkedin" } }
        c5Stub).db,
      j ∈ ([] : List Job) ∨
        (j.job_description = c5Stub.snippet ∧ j.job_description ≠ "")) ∧
    (∀ j ∈ (scrapeStubStep (fun x => x.job_id) (fun _ => Except.ok "") true
        { existing := [], db := [], result := { source := "linkedin" } }
        c5Stub).db,
      j ∈ ([] : List Job) ∨
        (j.job_description = c5Stub.snippet ∧ j.job_description ≠ "")) ∧
    ((deepStubStep (fun _ => Except.ok "") true "Acme"
        { existing := [], db := [], company_new := 0 } c5Stub).db.length =
      ([] : List Job).length + 1) ∧
    (∀ j ∈ (deepStubStep (fun _ => Except.ok "") true "Acme"
        { existing := [], db := [], company_new := 0 } c5Stub).db,
      j ∈ ([] : List Job) ∨
        (j.job_description = c5Stub.snippet ∧ j.job_description ≠ "")) :=
  snippet_fallback_invariant (fun _ => Except.ok "")
    { existing := [], db := [], result := { source := "linkedin" } }
    { existing := [], db := [], company_new := 0 } c5Stub "Acme"
    (by decide) (by decide) (by decide) (by decide) rfl rfl (by decide)

/-! ## Claim C6 -/

/-- Stub with no title, no snippet and no detail text: the orchestrator
discards it, the pipeline persists it. -/
def c6Stub : Stub :=
  { job_title := "", company_name := "", location := none
    job_url := "https://www.linkedin.com/jobs/view/3000003", job_id := "3000003"
    snippet := "", posted_date := none, source := "linkedin" }

/-- C6 counterexample: on a surviving stub with empty detail text, empty
snippet and no title, the pipeline's per-stub step persists a record
(with empty description) and counts it new, while the orchestrator's
per-stub step of section 4.5 discards it — the two steps are not
behaviorally identical. -/
theorem deep_step_differs_counterexample :
    (deepStubStep (fun _ => Except.ok "") true "Acme"
      { existing := [], db := [], company_new := 0 } c6Stub).db.length = 1 ∧
    (deepStubStep (fun _ => Except.ok "") true "Acme"
      { existing := [], db := [], company_new := 0 } c6Stub).company_new = 1 ∧
    (scrapeStubStep (fun x => x.job_id) (fun _ => Except.ok "") true
      { existing := [], db := [], result := { source := "linkedin" } }
      c6Stub).db.length = 0 ∧
    (scrapeStubStep (fun x => x.job_id) (fun _ => Except.ok "") true
      { existing := [], db := [], result := { source := "linkedin" } }
      c6Stub).result.jobs_new = 0 := by
  refine ⟨?_, ?_, ?_, ?_⟩ <;> decide

/-- Source retagging applied by the pipeline to the records the
orchestrator step would persist. -/
def retagDeep (j : Job) : Job :=
  { j with source := "deep_research" }

/-- Applying the snippet fallback twice is the same as applying it
once. -/
theorem snippet_fallback_idem (x snippet : String) :
    (if (if x = "" then snippet else x) = "" then snippet
      else (if x = "" then snippet else x)) =
      (if x = "" then snippet else x) := by
  by_cases hx : x = "" <;> by_cases hs : snippet = "" <;> simp [hx, hs]

/-- One pipeline per-stub step simulates one orchestrator per-stub step
up to source retagging, when the stub has a non-empty title (so the
orchestrator's minimum-content discard cannot fire) and a non-empty
company name (so the differing company defaults are not consulted). -/
theorem deep_orch_step_rel (f : String → Except String String) (fd : Bool)
    (cn : String) (stub : Stub)
    (h1 : stub.job_title ≠ "") (h2 : stub.company_name ≠ "")
    (dst : DeepState) (ost : OrchState)
    (hex : dst.existing = ost.existing) (hdb : dst.db = ost.db.map retagDeep)
    (hnew : dst.company_new = ost.result.jobs_new) :
    (deepStubStep f fd cn dst stub).existing =
      (scrapeStubStep (fun x => x.job_id) f fd ost stub).existing ∧
    (deepStubStep f fd cn dst stub).db =
      (scrapeStubStep (fun x => x.job_id) f fd ost stub).db.map retagDeep ∧
    (deepStubStep f fd cn dst stub).company_new =
      (scrapeStubStep (fun x => x.job_id) f fd ost stub).result.jobs_new := by
  unfold deepStubStep scrapeStubStep
  rw [hex, hdb, hnew]
  by_cases hdup : stub.job_url ∈ ost.existing
  · rw [if_pos hdup, if_pos hdup]
    exact ⟨hex, hdb, hnew⟩
  · rw [if_neg hdup, if_neg hdup]
    dsimp only
    by_cases hg : fd = true ∧ stub.job_id ≠ ""
    · rw [if_pos hg, if_pos hg]
      cases hf : f stub.job_id with
      | ok d =>
          dsimp only
          rw [if_neg (fun hcon => h1 hcon.2)]
          refine ⟨rfl, ?_, rfl⟩
          simp only [List.map_append, List.map_cons, List.map_nil]
          simp [retagDeep, stub_to_job, h2, snippet_fallback_idem]
      | error e =>
          dsimp only
          rw [if_neg (fun hcon => h1 hcon.2)]
          refine ⟨rfl, ?_, rfl⟩
          simp only [List.map_append, List.map_cons, List.map_nil]
          simp [retagDeep, stub_to_job, h2, snippet_fallback_idem]
    · rw [if_neg hg, if_neg hg]
      dsimp only
      rw [if_neg (fun hcon => h1 hcon.2)]
      refine ⟨rfl, ?_, rfl⟩
      simp only [List.map_append, List.map_cons, List.map_nil]
      simp [retagDeep, stub_to_job, h2, snippet_fallback_idem]

/-- Folded version of deep_orch_step_rel over a stub list. -/
theorem deep_orch_fold_rel (f : String → Except String String) (fd : Bool)
    (cn : String) :
    ∀ (stubs : List Stub),
    (∀ stub ∈ stubs, stub.job_title ≠ "" ∧ stub.company_name ≠ "") →
    ∀ (dst : DeepState) (ost : OrchState),
    dst.existing = ost.existing → dst.db = ost.db.map retagDeep →
    dst.company_new = ost.result.jobs_new →
    (stubs.foldl (deepStubStep f fd cn) dst).existing =
      (stubs.foldl (scrapeStubStep (fun x => x.job_id) f fd) ost).existing ∧
    (stubs.foldl (deepStubStep f fd cn) dst).db =
      (stubs.foldl (scrapeStubStep (fun x => x.job_id) f fd) ost).db.map
        retagDeep ∧
    (stubs.foldl (deepStubStep f fd cn) dst).company_new =
      (stubs.foldl (scrapeStubStep (fun x => x.job_id) f fd) ost).result.jobs_new :=
  by
  intro stubs
  induction stubs with
  | nil => intro _ dst ost hex hdb hnew; exact ⟨hex, hdb, hnew⟩
  | cons stub rest ih =>
      intro h dst ost hex hdb hnew
      have hstep := deep_orch_step_rel f fd cn stub
        (h stub (by simp)).1 (h stub (by simp)).2 dst ost hex hdb hnew
      exact ih (fun x hx => h x (by simp [hx]))
        _ _ hstep.1 hstep.2.1 hstep.2.2

/-- The per-stub loop never changes jobs_found. -/
theorem scrapeStubStep_result_jobs_found (dk : Stub → String)
    (f : String → Except String String) (fd : Bool) (st : OrchState)
    (stub : Stub) :
    (scrapeStubStep dk f fd st stub).result.jobs_found =
      st.result.jobs_found := by
  unfold scrapeStubStep
  dsimp only
  repeat' split
  all_goals rfl

/-- Folded version of scrapeStubStep_result_jobs_found. -/
theorem scrapeFold_result_jobs_found (dk : Stub → String)
    (f : String → Except String String) (fd : Bool) :
    ∀ (stubs : List Stub) (st : OrchState),
    ((stubs.foldl (scrapeStubStep dk f fd) st).result).jobs_found =
      st.result.jobs_found := by
  intro stubs
  induction stubs with
  | nil => intro st; rfl
  | cons stub rest ih =>
      intro st
      rw [List.foldl_cons, ih, scrapeStubStep_result_jobs_found]

/-- C6 amended: for stubs that carry a non-empty title and a non-empty
company name, the pipeline's per-stub enrichment-and-persist loop is
behaviorally identical to the orchestrator's per-source loop of
section 4.5 up to the source tag: same seen-set evolution, same
persisted records except source = deep_research, the finished event's
new count equals the per-source outcome's jobs_new, and the finished
event's found count equals the outcome's jobs_found (the stub count).
Outside this hypothesis the two differ: the pipeline omits the
below-minimum-content discard, defaults a missing company name to the
researched company's name instead of Unknown, and it never counts
duplicates or enrichments nor records detail-fetch errors. -/
theorem deep_enrichment_refines_orchestrator
    (f : String → Except String String) (fd : Bool) (cn : String)
    (stubs : List Stub) (ex : List String)
    (h : ∀ stub ∈ stubs, stub.job_title ≠ "" ∧ stub.company_name ≠ "") :
    (stubs.foldl (deepStubStep f fd cn)
        { existing := ex, db := [], company_new := 0 }).existing =
      (stubs.foldl (scrapeStubStep (fun x => x.job_id) f fd)
        { existing := ex, db := []
          result := { source := "linkedin", jobs_found := stubs.length } }).existing ∧
    (stubs.foldl (deepStubStep f fd cn)
        { existing := ex, db := [], company_new := 0 }).db =
      ((stubs.foldl (scrapeStubStep (fun x => x.job_id) f fd)
        { existing := ex, db := []
          result := { source := "linkedin", jobs_found := stubs.length } }).db).map
        retagDeep ∧
    (stubs.foldl (deepStubStep f fd cn)
        { existing := ex, db := [], company_new := 0 }).company_new =
      (stubs.foldl (scrapeStubStep (fun x => x.job_id) f fd)
        { existing := ex, db := []
          result := { source := "linkedin", jobs_found := stubs.length } }).result.jobs_new ∧
    (stubs.foldl (scrapeStubStep (fun x => x.job_id) f fd)
        { existing := ex, db := []
          result := { source := "linkedin", jobs_found := stubs.length } }).result.jobs_found =
      stubs.length := by
  have hrel := deep_orch_fold_rel f fd cn stubs h
    { existing := ex, db := [], company_new := 0 }
    { existing := ex, db := []
      result := { source := "linkedin", jobs_found := stubs.length } }
    rfl rfl rfl
  exact ⟨hrel.1, hrel.2.1, hrel.2.2,
    scrapeFold_result_jobs_found (fun x => x.job_id) f fd stubs _⟩

/-- Witness for the C6 amended theorem: two well-formed stubs, one of
which is enriched and one of which falls back to its snippet. -/
def c6WitnessStubs : List Stub :=
  [{ job_title := "Engineer", company_name := "Acme", location := none
     job_url := "https://www.linkedin.com/jobs/view/4000004", job_id := "4000004"
     snippet := "Snippet A.", posted_date := none, source := "linkedin" },
   { job_title := "Analyst", company_name := "Globex", location := some "NYC"
     job_url := "https://www.linkedin.com/jobs/view/5000005", job_id := "5000005"
     snippet := "Snippet B.", posted_date := none, source := "linkedin" }]

/-- Witness for C6's amended theorem at a concrete stub list. -/
theorem deep_enrichment_refines_orchestrator_witness :
    (c6WitnessStubs.foldl
        (deepStubStep (fun k => if k = "4000004" then Except.ok "Long text." else Except.error "timeout") true "Acme")
        { existing := [], db := [], company_new := 0 }).existing =
      (c6WitnessStubs.foldl
        (scrapeStubStep (fun x => x.job_id) (fun k => if k = "4000004" then Except.ok "Long text." else Except.error "timeout") true)
        { existing := [], db := []
          result := { source := "linkedin", jobs_found := c6WitnessStubs.length } }).existing ∧
    (c6WitnessStubs.foldl
        (deepStubStep (fun k => if k = "4000004" then Except.ok "Long text." else Except.error "timeout") true "Acme")
        { existing := [], db := [], company_new := 0 }).db =
      ((c6WitnessStubs.foldl
        (scrapeStubStep (fun x => x.job_id) (fun k => if k = "4000004" then Except.ok "Long text." else Except.error "timeout") true)
        { existing := [], db := []
          result := { source := "linkedin", jobs_found := c6WitnessStubs.length } }).db).map
        retagDeep ∧
    (c6WitnessStubs.foldl
        (deepStubStep (fun k => if k = "4000004" then Except.ok "Long text." else Except.error "timeout") true "Acme")
        { existing := [], db := [], company_new := 0 }).company_new =
      (c6WitnessStubs.foldl
        (scrapeStubStep (fun x => x.job_id) (fun k => if k = "4000004" then Except.ok "Long text." else Except.error "timeout") true)
        { existing := [], db := []
          result := { source := "linkedin", jobs_found := c6WitnessStubs.length } }).result.jobs_new ∧
    (c6WitnessStubs.foldl
        (scrapeStubStep (fun x => x.job_id) (fun k => if k = "4000004" then Except.ok "Long text." else Except.error "timeout") true)
        { existing := [], db := []
          result := { source := "linkedin", jobs_found := c6WitnessStubs.length } }).result.jobs_found =
      c6WitnessStubs.length :=
  deep_enrichment_refines_orchestrator
    (fun k => if k = "4000004" then Except.ok "Long text." else Except.error "timeout")
    true "Acme" c6WitnessStubs [] (by decide)

/-! ## Claim C4 -/

/-- Run-wide dedup invariant over the threaded state: the seed keys stay
in the seen set, every persisted record's URL is in the seen set, the
persisted URLs are pairwise distinct, and no persisted URL was in the
seed. -/
def DedupInv (seed existing : List String) (db : List Job) : Prop :=
  (∀ u ∈ seed, u ∈ existing) ∧ (∀ j ∈ db, j.job_url ∈ existing) ∧
  ((db.map Job.job_url).Nodup) ∧ (∀ j ∈ db, j.job_url ∉ seed)

/-- Persisting a record whose URL is not yet seen, while marking its URL
seen, preserves the dedup invariant. -/
theorem DedupInv.persist (seed existing : List String) (db : List Job)
    (j : Job) (u : String) (inv : DedupInv seed existing db)
    (hu : j.job_url = u) (hnot : u ∉ existing) :
    DedupInv seed (existing ++ [u]) (db ++ [j]) := by
  subst hu
  obtain ⟨h1, h2, h3, h4⟩ := inv
  refine ⟨?_, ?_, ?_, ?_⟩
  · intro u hu
    exact List.mem_append_left _ (h1 u hu)
  · intro x hx
    rcases List.mem_append.mp hx with h | h
    · exact List.mem_append_left _ (h2 x h)
    · rw [List.mem_singleton.mp h]
      exact List.mem_append_right _ (by simp)
  · rw [List.map_append]
    refine List.Nodup.append h3 (by simp) ?_
    intro a ha hb
    simp only [List.map_cons, List.map_nil, List.mem_singleton] at hb
    subst hb
    rcases List.mem_map.mp ha with ⟨x, hx, hxe⟩
    exact hnot (hxe ▸ h2 x hx)
  · intro x hx
    rcases List.mem_append.mp hx with h | h
    · exact h4 x h
    · rw [List.mem_singleton.mp h]
      intro hseed
      exact hnot (h1 _ hseed)

/-- The orchestrator per-stub step preserves the dedup invariant. -/
theorem scrapeStubStep_dedupInv (seed : List String) (dk : Stub → String)
    (f : String → Except String String) (fd : Bool) (st : OrchState)
    (stub : Stub) (inv : DedupInv seed st.existing st.db) :
    DedupInv seed (scrapeStubStep dk f fd st stub).existing
      (scrapeStubStep dk f fd st stub).db := by
  unfold scrapeStubStep
  by_cases hdup : stub.job_url ∈ st.existing
  · rw [if_pos hdup]
    exact inv
  · rw [if_neg hdup]
    dsimp only
    repeat' split
    all_goals first
      | exact inv
      | exact DedupInv.persist seed st.existing st.db _ _ inv rfl hdup

/-- Folded version of scrapeStubStep_dedupInv. -/
theorem scrapeFold_dedupInv (seed : List String) (dk : Stub → String)
    (f : String → Except String String) (fd : Bool) :
    ∀ (stubs : List Stub) (st : OrchState),
    DedupInv seed st.existing st.db →
    DedupInv seed ((stubs.foldl (scrapeStubStep dk f fd) st)).existing
      ((stubs.foldl (scrapeStubStep dk f fd) st)).db := by
  intro stubs
  induction stubs with
  | nil => intro st inv; exact inv
  | cons stub rest ih =>
      intro st inv
      rw [List.foldl_cons]
      exact ih _ (scrapeStubStep_dedupInv seed dk f fd st stub inv)

/-- scrape_source preserves the dedup invariant (a raised search leaves
the state untouched). -/
theorem scrape_source_dedupInv (seed : List String) (source : String)
    (dk : Stub → String) (env : SourceEnv) (fd : Bool)
    (existing : List String) (db : List Job)
    (inv : DedupInv seed existing db) :
    DedupInv seed (scrape_source source dk env fd existing db).existing
      (scrape_source source dk env fd existing db).db := by
  unfold scrape_source
  cases env.search with
  | error e => exact inv
  | ok stubs => exact scrapeFold_dedupInv seed dk env.fetchDetail fd stubs _ inv

/-- run_scrape's source loop preserves the dedup invariant. -/
theorem runScrapeLoop_dedupInv (seed : List String) (env : RunEnv) (fd : Bool) :
    ∀ (sources : List String) (existing : List String) (db : List Job)
      (report : ScrapeReport),
    DedupInv seed existing db →
    DedupInv seed (runScrapeLoop env fd sources existing db report).2.2
      (runScrapeLoop env fd sources existing db report).2.1 := by
  intro sources
  induction sources with
  | nil => intro existing db report inv; exact inv
  | cons s rest ih =>
      intro existing db report inv
      rw [runScrapeLoop]
      by_cases hi : s = "indeed"
      · rw [if_pos hi]
        exact ih _ _ _ (scrape_source_dedupInv seed "indeed" _ env.indeed fd
          existing db inv)
      · rw [if_neg hi]
        by_cases hl : s = "linkedin"
        · rw [if_pos hl]
          exact ih _ _ _ (scrape_source_dedupInv seed "linkedin" _ env.linkedin fd
            existing db inv)
        · rw [if_neg hl]
          exact ih _ _ _ inv

/-- The seeded initial state satisfies the dedup invariant. -/
theorem DedupInv.initial (seed : List String) : DedupInv seed seed [] :=
  ⟨fun _ hu => hu, by simp, by simp, by simp⟩

/-- The pipeline per-stub step preserves the dedup invariant. -/
theorem deepStubStep_dedupInv (seed : List String)
    (f : String → Except String String) (fd : Bool) (cn : String)
    (st : DeepState) (stub : Stub) (inv : DedupInv seed st.existing st.db) :
    DedupInv seed (deepStubStep f fd cn st stub).existing
      (deepStubStep f fd cn st stub).db := by
  unfold deepStubStep
  by_cases hdup : stub.job_url ∈ st.existing
  · rw [if_pos hdup]
    exact inv
  · rw [if_neg hdup]
    dsimp only
    exact DedupInv.persist seed st.existing st.db _ _ inv rfl hdup

/-- Folded version of deepStubStep_dedupInv. -/
theorem deepFold_dedupInv (seed : List String)
    (f : String → Except String String) (fd : Bool) (cn : String) :
    ∀ (stubs : List Stub) (st : DeepState),
    DedupInv seed st.existing st.db →
    DedupInv seed ((stubs.foldl (deepStubStep f fd cn) st)).existing
      ((stubs.foldl (deepStubStep f fd cn) st)).db := by
  intro stubs
  induction stubs with
  | nil => intro st inv; exact inv
  | cons stub rest ih =>
      intro st inv
      rw [List.foldl_cons]
      exact ih _ (deepStubStep_dedupInv seed f fd cn st stub inv)

/-- The pipeline's per-target loop preserves the dedup invariant. -/
theorem deepLoop_dedupInv (seed : List String) (env : DeepEnv) (role : String)
    (fd : Bool) :
    ∀ (companies : List CompanyInfo) (i : Nat) (st : DeepRunState),
    DedupInv seed st.existing st.db →
    DedupInv seed (deepLoop env role fd companies i st).2.existing
      (deepLoop env role fd companies i st).2.db := by
  intro companies
  induction companies with
  | nil => intro i st inv; exact inv
  | cons company rest ih =>
      intro i st inv
      rw [deepLoop]
      cases env.search (role ++ " " ++ company.name) with
      | error err =>
          dsimp only
          exact ih _ _ inv
      | ok stubs =>
          dsimp only
          exact ih _ _ (deepFold_dedupInv seed env.fetchDetail fd company.name
            stubs { existing := st.existing, db := st.db, company_new := 0 } inv)

/-- C4 amended: a dedup key already marked seen is skipped at both
per-stub sites — neither persisted nor counted as new.  The orchestrator
step counts one duplicate in the per-source outcome; the pipeline step
returns its whole state unchanged (it keeps no duplicate counter, so the
skip is silent).  Run-wide, a full orchestrator run and a full pipeline
run never persist two records with the same canonical URL and never
persist a record whose URL was seeded from persistence. -/
theorem dedup_invariant (dk : Stub → String)
    (f : String → Except String String) (fd : Bool) (cn : String)
    (st : OrchState) (dst : DeepState) (stub : Stub)
    (hdupO : stub.job_url ∈ st.existing) (hdupD : stub.job_url ∈ dst.existing)
    (env : RunEnv) (sources : List String) (seed : List String)
    (denv : DeepEnv) (role : String) :
    (scrapeStubStep dk f fd st stub =
      { st with result := { st.result with
          jobs_skipped_duplicate := st.result.jobs_skipped_duplicate + 1 } }) ∧
    (deepStubStep f fd cn dst stub = dst) ∧
    (((run_scrape env true sources seed fd).2.1.map Job.job_url).Nodup ∧
      ∀ j ∈ (run_scrape env true sources seed fd).2.1, j.job_url ∉ seed) ∧
    (((run_deep_research denv role fd seed).db.map Job.job_url).Nodup ∧
      ∀ j ∈ (run_deep_research denv role fd seed).db, j.job_url ∉ seed) := by
  refine ⟨?_, ?_, ?_, ?_⟩
  · unfold scrapeStubStep
    rw [if_pos hdupO]
  · unfold deepStubStep
    rw [if_pos hdupD]
  · have hinv : DedupInv seed (run_scrape env true sources seed fd).2.2
        (run_scrape env true sources seed fd).2.1 := by
      unfold run_scrape
      rw [if_pos rfl]
      exact runScrapeLoop_dedupInv seed env fd sources seed [] {}
        (DedupInv.initial seed)
    exact ⟨hinv.2.2.1, hinv.2.2.2⟩
  · have hinv : DedupInv seed (run_deep_research denv role fd seed).existing
        (run_deep_research denv role fd seed).db := by
      unfold run_deep_research
      cases denv.research with
      | error err =>
          cases err with
          | llm m => exact DedupInv.initial seed
          | unexpected m => exact DedupInv.initial seed
      | ok companies =>
          dsimp only
          by_cases hne : companies.isEmpty = true
          · rw [if_pos hne]
            exact DedupInv.initial seed
          · rw [if_neg hne]
            exact deepLoop_dedupInv seed denv role fd companies 0
              { existing := seed, db := [], total_new := 0 }
              (DedupInv.initial seed)
    exact ⟨hinv.2.2.1, hinv.2.2.2⟩

/-- Orchestrator environment for concrete run witnesses: Indeed returns
two stubs one of which repeats a seeded URL, LinkedIn returns one stub
repeating an Indeed URL. -/
def c4IndeedStub1 : Stub :=
  { job_title := "Engineer", company_name := "Acme", location := none
    job_url := "https://www.indeed.com/viewjob?jk=a1", job_id := ""
    snippet := "Work on large distributed systems daily.", posted_date := none
    source := "indeed" }

/-- Second Indeed stub for the C4 witness, with a seeded URL. -/
def c4IndeedStub2 : Stub :=
  { job_title := "Analyst", company_name := "Globex", location := none
    job_url := "https://seeded.example/1", job_id := ""
    snippet := "Analyze markets and write daily reports.", posted_date := none
    source := "indeed" }

/-- LinkedIn stub for the C4 witness that duplicates the first Indeed
stub's canonical URL. -/
def c4LinkedStub : Stub :=
  { job_title := "Engineer", company_name := "Acme", location := none
    job_url := "https://www.indeed.com/viewjob?jk=a1", job_id := "6000006"
    snippet := "Cross-posted listing for the same role.", posted_date := none
    source := "linkedin" }

/-- Run environment for the C4 witness. -/
def c4Env : RunEnv :=
  { indeed := { search := Except.ok [c4IndeedStub1, c4IndeedStub2]
                fetchDetail := fun _ => Except.ok "A long enough description text." }
    linkedin := { search := Except.ok [c4LinkedStub]
                  fetchDetail := fun _ => Except.ok "A long enough description text." } }

/-- Concrete orchestrator state for the C4 witness, holding one seeded
URL. -/
def c4OrchState : OrchState :=
  { existing := ["https://seeded.example/1"], db := []
    result := { source := "indeed" } }

/-- Concrete pipeline state for the C4 witness. -/
def c4DeepState : DeepState :=
  { existing := ["https://seeded.example/1"], db := [], company_new := 0 }

/-- C4 counterexample: at a concrete stub whose canonical URL is
already marked seen, the Discovery Pipeline's per-stub step
(deep_research.py skipping a seen URL with a bare continue) is the
identity on its entire state — the stub is skipped silently and no
duplicate is counted anywhere, as DeepState carries no duplicate
counter — whereas the orchestrator's per-stub step does count one
duplicate in its outcome.  This refutes the claim's assertion that a
seen-key stub is counted as a duplicate at every site, the pipeline's
targets included. -/
theorem dedup_pipeline_counts_no_duplicate_counterexample :
    deepStubStep (fun _ => Except.ok "") true "Acme"
      { existing := ["https://seeded.example/1"], db := [], company_new := 0 }
      c4IndeedStub2 =
      { existing := ["https://seeded.example/1"], db := [], company_new := 0 } ∧
    (scrapeStubStep (fun x => x.job_url) (fun _ => Except.ok "") true
      { existing := ["https://seeded.example/1"], db := []
        result := { source := "indeed" } }
      c4IndeedStub2).result.jobs_skipped_duplicate = 1 := by
  refine ⟨?_, ?_⟩ <;> decide

/-- Witness for C4: with a seeded URL and a cross-source duplicate, the
step facts hold at concrete states and the full runs persist pairwise
distinct URLs none of which was seeded. -/
theorem dedup_invariant_witness :
    (scrapeStubStep (fun x => x.job_url) (fun _ => Except.ok "") true
      c4OrchState c4IndeedStub2 =
      { c4OrchState with result := { c4OrchState.result with
          jobs_skipped_duplicate :=
            c4OrchState.result.jobs_skipped_duplicate + 1 } }) ∧
    (deepStubStep (fun _ => Except.ok "") true "Acme" c4DeepState
      c4IndeedStub2 = c4DeepState) ∧
    (((run_scrape c4Env true ["indeed", "linkedin"] ["https://seeded.example/1"]
        true).2.1.map Job.job_url).Nodup ∧
      ∀ j ∈ (run_scrape c4Env true ["indeed", "linkedin"]
        ["https://seeded.example/1"] true).2.1,
        j.job_url ∉ ["https://seeded.example/1"]) ∧
    (((run_deep_research c2Env "backend engineer" true
        ["https://seeded.example/1"]).db.map Job.job_url).Nodup ∧
      ∀ j ∈ (run_deep_research c2Env "backend engineer" true
        ["https://seeded.example/1"]).db,
        j.job_url ∉ ["https://seeded.example/1"]) :=
  dedup_invariant (fun x => x.job_url) (fun _ => Except.ok "") true "Acme"
    c4OrchState c4DeepState c4IndeedStub2 (by decide) (by decide)
    c4Env ["indeed", "linkedin"] ["https://seeded.example/1"]
    c2Env "backend engineer"

/-! ## Claim C1 -/

/-- A raised search is caught: the outcome for the source is the
zero-counts result carrying the single truncated error message, and the
seen set and the database are left untouched. -/
theorem scrape_source_error (source : String) (dk : Stub → String)
    (env : SourceEnv) (fd : Bool) (existing : List String) (db : List Job)
    (m : String) (h : env.search = Except.error m) :
    scrape_source source dk env fd existing db =
      { existing := existing, db := db
        result := { source := source
                    errors := ["Search failed: " ++ m.take 200] } } := by
  unfold scrape_source
  rw [h]

/-- Over recognized sources, the run loop appends exactly one outcome
per requested source, in request order. -/
theorem runScrapeLoop_map_source (env : RunEnv) (fd : Bool) :
    ∀ (sources : List String) (existing : List String) (db : List Job)
      (report : ScrapeReport),
    (∀ s ∈ sources, s = "indeed" ∨ s = "linkedin") →
    (runScrapeLoop env fd sources existing db report).1.results.map
        (fun r => r.source) =
      report.results.map (fun r => r.source) ++ sources := by
  intro sources
  induction sources with
  | nil => intro existing db report _; simp [runScrapeLoop]
  | cons s rest ih =>
      intro existing db report hknown
      rw [runScrapeLoop]
      rcases hknown s (by simp) with hi | hl
      · subst hi
        rw [if_pos rfl]
        rw [ih _ _ _ (fun x hx => hknown x (by simp [hx]))]
        simp only [List.map_append, List.map_cons, List.map_nil]
        rw [scrape_source_result_source]
        simp
      · subst hl
        rw [if_neg (by decide : ¬("linkedin" = "indeed")), if_pos rfl]
        rw [ih _ _ _ (fun x hx => hknown x (by simp [hx]))]
        simp only [List.map_append, List.map_cons, List.map_nil]
        rw [scrape_source_result_source]
        simp

/-- When Indeed's search raises, every Indeed outcome the loop appends
is the single-error zero-count outcome. -/
theorem runScrapeLoop_indeed_entries (env : RunEnv) (fd : Bool) (m : String)
    (hfail : env.indeed.search = Except.error m) :
    ∀ (sources : List String) (existing : List String) (db : List Job)
      (report : ScrapeReport),
    (∀ r ∈ report.results, r.source = "indeed" →
      r = { source := "indeed", errors := ["Search failed: " ++ m.take 200] }) →
    ∀ r ∈ (runScrapeLoop env fd sources existing db report).1.results,
      r.source = "indeed" →
      r = { source := "indeed", errors := ["Search failed: " ++ m.take 200] } := by
  intro sources
  induction sources with
  | nil => intro existing db report hrep; exact hrep
  | cons s rest ih =>
      intro existing db report hrep
      rw [runScrapeLoop]
      by_cases hi : s = "indeed"
      · rw [if_pos hi]
        apply ih
        intro r hr hsrc
        rcases List.mem_append.mp hr with h | h
        · exact hrep r h hsrc
        · rw [List.mem_singleton.mp h]
          subst hi
          rw [scrape_source_error "indeed" _ env.indeed fd existing db m hfail]
      · rw [if_neg hi]
        by_cases hl : s = "linkedin"
        · rw [if_pos hl]
          apply ih
          intro r hr hsrc
          rcases List.mem_append.mp hr with h | h
          · exact hrep r h hsrc
          · exfalso
            rw [List.mem_singleton.mp h] at hsrc
            rw [scrape_source_result_source] at hsrc
            exact absurd hsrc (by decide)
        · rw [if_neg hl]
          exact ih _ _ _ hrep

/-- When Indeed's search raises, the loop behaves on the LinkedIn part
of the report, on the total, on the database and on the seen set exactly
as a loop over the LinkedIn requests alone. -/
theorem runScrapeLoop_indeed_fail_iso (env : RunEnv) (fd : Bool) (m : String)
    (hfail : env.indeed.search = Except.error m) :
    ∀ (sources : List String) (existing : List String) (db : List Job)
      (report report' : ScrapeReport),
    report.results.filter (fun r => r.source == "linkedin") = report'.results →
    report.total_new = report'.total_new →
    ((runScrapeLoop env fd sources existing db report).1.results.filter
        (fun r => r.source == "linkedin") =
      (runScrapeLoop env fd (sources.filter (fun s => s == "linkedin"))
        existing db report').1.results) ∧
    ((runScrapeLoop env fd sources existing db report).1.total_new =
      (runScrapeLoop env fd (sources.filter (fun s => s == "linkedin"))
        existing db report').1.total_new) ∧
    ((runScrapeLoop env fd sources existing db report).2 =
      (runScrapeLoop env fd (sources.filter (fun s => s == "linkedin"))
        existing db report').2) := by
  intro sources
  induction sources with
  | nil =>
      intro existing db report report' hres htot
      exact ⟨hres, htot, rfl⟩
  | cons s rest ih =>
      intro existing db report report' hres htot
      by_cases hi : s = "indeed"
      · subst hi
        have hfilter : ("indeed" :: rest).filter (fun s => s == "linkedin") =
            rest.filter (fun s => s == "linkedin") := by
          simp [List.filter_cons]
        rw [hfilter, runScrapeLoop, if_pos rfl,
          scrape_source_error "indeed" _ env.indeed fd existing db m hfail]
        apply ih
        · rw [List.filter_append, hres]
          simp
        · simpa using htot
      · by_cases hl : s = "linkedin"
        · subst hl
          have hfilter : ("linkedin" :: rest).filter (fun s => s == "linkedin") =
              "linkedin" :: rest.filter (fun s => s == "linkedin") := by
            simp [List.filter_cons]
          rw [hfilter, runScrapeLoop, runScrapeLoop,
            if_neg (by decide : ¬("linkedin" = "indeed")), if_pos rfl,
            if_neg (by decide : ¬("linkedin" = "indeed")), if_pos rfl]
          apply ih
          · rw [List.filter_append, hres]
            have : (fun r => r.source == "linkedin")
                (scrape_source "linkedin" (fun stub => stub.job_id) env.linkedin
                  fd existing db).result = true := by
              simp [scrape_source_result_source]
            simp [List.filter_cons, this]
          · rw [htot]
        · have hfilter : (s :: rest).filter (fun s => s == "linkedin") =
              rest.filter (fun s => s == "linkedin") := by
            simp [List.filter_cons, hl]
          rw [hfilter, runScrapeLoop, if_neg hi, if_neg hl]
          exact ih _ _ _ _ hres htot

/-- C1: with every requested source recognized and Indeed's search
raising, the report has one outcome per requested source in request
order; every Indeed outcome is the isolated failure record (found 0,
new 0, zero counters, exactly one truncated error message); and the
LinkedIn outcomes, the grand total, the persisted records and the final
seen set are exactly those of a run over the LinkedIn requests alone —
the failure aborts nothing. -/
theorem run_scrape_source_failure_isolation (env : RunEnv) (fd : Bool)
    (sources : List String) (seed : List String) (m : String)
    (hknown : ∀ s ∈ sources, s = "indeed" ∨ s = "linkedin")
    (hfail : env.indeed.search = Except.error m) :
    ((run_scrape env true sources seed fd).1.results.map (fun r => r.source) =
      sources) ∧
    (∀ r ∈ (run_scrape env true sources seed fd).1.results,
      r.source = "indeed" →
      r = { source := "indeed", errors := ["Search failed: " ++ m.take 200] }) ∧
    ((run_scrape env true sources seed fd).1.results.filter
        (fun r => r.source == "linkedin") =
      (run_scrape env true (sources.filter (fun s => s == "linkedin")) seed
        fd).1.results) ∧
    ((run_scrape env true sources seed fd).1.total_new =
      (run_scrape env true (sources.filter (fun s => s == "linkedin")) seed
        fd).1.total_new) ∧
    ((run_scrape env true sources seed fd).2 =
      (run_scrape env true (sources.filter (fun s => s == "linkedin")) seed
        fd).2) := by
  unfold run_scrape
  rw [if_pos rfl]
  have hiso := runScrapeLoop_indeed_fail_iso env fd m hfail sources seed [] {} {}
    rfl rfl
  refine ⟨?_, ?_, hiso.1, hiso.2.1, hiso.2.2⟩
  · rw [runScrapeLoop_map_source env fd sources seed [] {} hknown]
    rfl
  · exact runScrapeLoop_indeed_entries env fd m hfail sources seed [] {}
      (by intro r hr; cases hr)

/-- Run environment for the C1 witness: Indeed raises, LinkedIn returns
one stub. -/
def c1Env : RunEnv :=
  { indeed := { search := Except.error "connection reset by peer"
                fetchDetail := fun _ => Except.ok "" }
    linkedin := { search := Except.ok [c5Stub]
                  fetchDetail := fun _ => Except.ok "A long enough description text." } }

/-- Witness for C1 at sources = [linkedin, indeed, linkedin]. -/
theorem run_scrape_source_failure_isolation_witness :
    ((run_scrape c1Env true ["linkedin", "indeed", "linkedin"] [] true).1.results.map
        (fun r => r.source) = ["linkedin", "indeed", "linkedin"]) ∧
    (∀ r ∈ (run_scrape c1Env true ["linkedin", "indeed", "linkedin"] []
        true).1.results,
      r.source = "indeed" →
      r = { source := "indeed"
            errors := ["Search failed: " ++
              ("connection reset by peer" : String).take 200] }) ∧
    ((run_scrape c1Env true ["linkedin", "indeed", "linkedin"] []
        true).1.results.filter (fun r => r.source == "linkedin") =
      (run_scrape c1Env true
        (["linkedin", "indeed", "linkedin"].filter (fun s => s == "linkedin"))
        [] true).1.results) ∧
    ((run_scrape c1Env true ["linkedin", "indeed", "linkedin"] []
        true).1.total_new =
      (run_scrape c1Env true
        (["linkedin", "indeed", "linkedin"].filter (fun s => s == "linkedin"))
        [] true).1.total_new) ∧
    ((run_scrape c1Env true ["linkedin", "indeed", "linkedin"] [] true).2 =
      (run_scrape c1Env true
        (["linkedin", "indeed", "linkedin"].filter (fun s => s == "linkedin"))
        [] true).2) :=
  run_scrape_source_failure_isolation c1Env true
    ["linkedin", "indeed", "linkedin"] [] "connection reset by peer"
    (by decide)
    rfl

/-! ## Claim C7 -/

/-- Parsed robots state that disallows every path. -/
def denyAllRobots : RobotFileParserState :=
  getRobotsParser (RobotsFetchOutcome.ok (fun _ => false))

/-- Page environment for the C7 counterexample: one stub on page 0. -/
def c7Env : PageEnv :=
  { fetch := fun _ => Except.ok ()
    parse := fun s => if s = 0 then [c9Stub] else [] }

/-- C7 counterexample: when the robots.txt fetch fails with a network
error, the cached parser has no rules and never-checked state, so
permits returns false — not the claimed fail-open true; and with a
successfully read policy that disallows every path, the Indeed search
loop still issues its page request. -/
theorem robots_policy_counterexample :
    permits (getRobotsParser (RobotsFetchOutcome.netError "dns failure"))
      (indeedSearchUrl "python" "" 0) = false ∧
    (scrape_indeed_search denyAllRobots c7Env "python" "" 10).2 = [0] ∧
    permits denyAllRobots (indeedSearchUrl "python" "" 0) = false :=
  ⟨rfl, by decide, rfl⟩

/-- The pagination loop's behaviour does not depend on the robots
state: the permission is computed and only logged. -/
theorem searchLoop_robots_independent (env : PageEnv) (urlOf : Nat → String)
    (keyOf : Stub → String) (maxResults : Nat) :
    ∀ (starts : List Nat) (jobs : List Stub) (seen : List String)
      (rp rp' : RobotFileParserState),
    searchLoop env rp urlOf keyOf maxResults starts jobs seen =
      searchLoop env rp' urlOf keyOf maxResults starts jobs seen := by
  intro starts
  induction starts with
  | nil => intro jobs seen rp rp'; rfl
  | cons s rest ih =>
      intro jobs seen rp rp'
      rw [searchLoop_cons, searchLoop_cons]
      cases env.fetch s with
      | error e => rfl
      | ok u =>
          dsimp only
          by_cases hp : (env.parse s).isEmpty = true
          · rw [if_pos hp, if_pos hp]
          · rw [if_neg hp, if_neg hp]
            by_cases hcap : maxResults ≤
                (collectPage keyOf maxResults (env.parse s) jobs seen).1.length
            · rw [if_pos hcap, if_pos hcap]
            · rw [if_neg hcap, if_neg hcap, ih _ _ rp rp']

/-- C7 amended: the wrapper can_fetch fails open only against an
exception raised by the robots evaluation itself.  A robots.txt whose
fetch raises a non-HTTP error yields a parser with no rules that denies
every path (fail-closed), as does a 5xx response; an HTTP 401/403 yields
disallow-all (false) and any other 4xx yields allow-all (true).  And
the scrapers evaluate the permission for each search page but only log
a restriction as an advisory: the search requests, and the whole search
result, are identical under any two robots states, so a disallowed path
is still requested. -/
theorem robots_failopen_amended (e msg u : String) (c : Nat)
    (rp rp' : RobotFileParserState) (env : PageEnv) (query location : String)
    (max_results : Nat) (h5xx : 500 ≤ c) :
    can_fetch (Except.error e) = true ∧
    permits (getRobotsParser (RobotsFetchOutcome.netError msg)) u = false ∧
    permits (getRobotsParser (RobotsFetchOutcome.httpError c)) u = false ∧
    permits (getRobotsParser (RobotsFetchOutcome.httpError 404)) u = true ∧
    permits (getRobotsParser (RobotsFetchOutcome.httpError 401)) u = false ∧
    permits (getRobotsParser (RobotsFetchOutcome.httpError 403)) u = false ∧
    scrape_indeed_search rp env query location max_results =
      scrape_indeed_search rp' env query location max_results ∧
    scrape_linkedin_search rp env query location max_results =
      scrape_linkedin_search rp' env query location max_results := by
  refine ⟨rfl, rfl, ?_, rfl, rfl, rfl, ?_, ?_⟩
  · unfold permits can_fetch robotparserCanFetch getRobotsParser
    dsimp only
    rw [if_neg (by simp; omega), if_neg (by simp; omega), if_pos (by simp)]
  · unfold scrape_indeed_search
    dsimp only
    rw [searchLoop_robots_independent env (indeedSearchUrl query location)
      (fun st => st.job_url) max_results (pyRange (min max_results 50) 10)
      [] [] rp rp']
  · unfold scrape_linkedin_search
    dsimp only
    rw [searchLoop_robots_independent env (linkedinSearchUrl query location)
      (fun st => st.job_id) max_results (pyRange (min max_results 50) 25)
      [] [] rp rp']

/-- Witness for C7's amended theorem at a concrete 503 robots fetch and
concrete robots states. -/
theorem robots_failopen_amended_witness :
    can_fetch (Except.error "robots evaluation raised") = true ∧
    permits (getRobotsParser (RobotsFetchOutcome.netError "timeout"))
      "https://www.indeed.com/jobs" = false ∧
    permits (getRobotsParser (RobotsFetchOutcome.httpError 503))
      "https://www.indeed.com/jobs" = false ∧
    permits (getRobotsParser (RobotsFetchOutcome.httpError 404))
      "https://www.indeed.com/jobs" = true ∧
    permits (getRobotsParser (RobotsFetchOutcome.httpError 401))
      "https://www.indeed.com/jobs" = false ∧
    permits (getRobotsParser (RobotsFetchOutcome.httpError 403))
      "https://www.indeed.com/jobs" = false ∧
    scrape_indeed_search allowAllRobots c7Env "python" "" 10 =
      scrape_indeed_search denyAllRobots c7Env "python" "" 10 ∧
    scrape_linkedin_search allowAllRobots c7Env "python" "" 10 =
      scrape_linkedin_search denyAllRobots c7Env "python" "" 10 :=
  robots_failopen_amended "robots evaluation raised" "timeout"
    "https://www.indeed.com/jobs" 503 allowAllRobots denyAllRobots c7Env
    "python" "" 10 (by decide)

end JobMatch
